import Mathlib

/-!
Verification development for the grid-aware-websites Cloudflare Workers plugin
(`src/index.js`). The JavaScript source is shallowly embedded: host objects
(requests, responses, KV namespaces, the upstream classification API, JSON
serialization, the HTML rewriter) are modelled as explicit data supplied in an
environment record, and the `auto` pipeline is translated branch-for-branch
into a pure Lean function that returns the outgoing response (or a thrown
exception) together with an observation trace of the KV and upstream calls it
performed.
-/

namespace Gaw

/-- A JavaScript value as far as the plugin inspects one: the code only ever
distinguishes strings (via `typeof x === "string"`) from everything else, and
the repository's own tests feed numbers, so two constructors suffice. -/
inductive JsVal where
  | str : String → JsVal
  | num : Int → JsVal
deriving DecidableEq, Repr

/-- `typeof x === "string" ? x : undefined` applied to an optional field. -/
def asStr : Option JsVal → Option String
  | some (.str s) => some s
  | _ => none

/-- JavaScript truthiness of a string-or-undefined value: `undefined` and the
empty string are falsy. -/
def jsT : Option String → Bool
  | none => false
  | some s => s != ""

/-- `x || d` for a string-valued option: the default is used when the value is
absent or the empty string (falsy). -/
def truthyGetD (o : Option String) (d : String) : String :=
  match o with
  | some s => if s == "" then d else s
  | none => d

/-- Template-literal coercion `` `${x}` `` of a string-or-undefined value. -/
def jsToStr : Option String → String
  | some s => s
  | none => "undefined"

/-- `String.prototype.includes`: substring containment. -/
def strContains (s sub : String) : Bool :=
  (List.range (s.length + 1)).any (fun i => (s.drop i).take sub.length == sub)

/-- `String.prototype.toLowerCase` (ASCII, which is all the compared
content-type strings use). -/
def lowerStr (s : String) : String :=
  ⟨s.data.map Char.toLower⟩

/-- The `request.cf` geolocation metadata object. -/
structure CfData where
  country : Option JsVal
  latitude : Option JsVal
  longitude : Option JsVal
deriving DecidableEq, Repr

/-- An incoming request, restricted to the fields the plugin reads: its URL,
its `cookie` header (`headers.get("cookie")`), and the `cf` object. -/
structure JsRequest where
  url : String
  cookie : Option String
  cf : Option CfData
deriving DecidableEq, Repr

/-- The options argument of `getLocation`. -/
structure LocOptions where
  mode : Option String
deriving DecidableEq, Repr

/-- The result object of `getLocation`: a `status` plus the fields the success
branches populate (`{status, country}` or `{status, lat, lon}`). -/
structure LocationResult where
  status : String
  country : Option String
  lat : Option String
  lon : Option String
deriving DecidableEq, Repr

/-- `getLocation(request, options)` from `src/index.js` (lines 22-61).
The lat/lon fields pass the `typeof x === "string"` filter, so a numeric
`cf.latitude` comes out as `undefined`. -/
def getLocation (request : JsRequest) (options : Option LocOptions) : LocationResult :=
  let mode := truthyGetD (options.bind (·.mode)) "country"
  let country := asStr (request.cf.bind (·.country))
  if mode == "latlon" then
    let lat := asStr (request.cf.bind (·.latitude))
    let lon := asStr (request.cf.bind (·.longitude))
    if !jsT lat || !jsT lon then
      ⟨"error", none, none, none⟩
    else
      ⟨"success", none, lat, lon⟩
  else
    if !jsT country then
      ⟨"error", none, none, none⟩
    else
      ⟨"success", country, none, none⟩

/-! ## The KV store helpers -/

/-- The options argument of the KV save helpers.  Only numeric `expirationTtl`
values pass the `typeof === "number"` check in the source, so the field is
modelled as an optional integer. -/
structure KvOptions where
  expirationTtl : Option Int
deriving DecidableEq, Repr

/-- One record in a KV namespace: key, stored value and the `expirationTtl`
it was written with. -/
structure KvEntry where
  key : String
  value : String
  ttl : Int
deriving DecidableEq, Repr

/-- `namespace.put(key, value, {expirationTtl})`: later puts shadow earlier
ones. -/
def kvPut (store : List KvEntry) (k v : String) (ttl : Int) : List KvEntry :=
  ⟨k, v, ttl⟩ :: store

/-- `namespace.get(key)`: the most recently put value, or `null`. -/
def kvGet (store : List KvEntry) (k : String) : Option String :=
  (store.find? (fun e => e.key == k)).map (·.value)

/-- The `expirationTtl` resolution in `saveDataToKv` (lines 107-112): default
one hour; an explicit value is used only when truthy (non-zero) and numeric. -/
def dataTtlOf (options : Option KvOptions) : Int :=
  match options with
  | some o =>
    match o.expirationTtl with
    | some t => if t != 0 then t else 60 * 60
    | none => 60 * 60
  | none => 60 * 60

/-- The `expirationTtl` resolution in `savePageToKv` (lines 73-78): default
24 hours; an explicit value is used only when truthy (non-zero) and numeric. -/
def pageTtlOf (options : Option KvOptions) : Int :=
  match options with
  | some o =>
    match o.expirationTtl with
    | some t => if t != 0 then t else 60 * 60 * 24
    | none => 60 * 60 * 24
  | none => 60 * 60 * 24

/-- `saveDataToKv(env, key, data, options)` (lines 107-115), acting on the
data-namespace store. -/
def saveDataToKv (store : List KvEntry) (key data : String)
    (options : Option KvOptions) : List KvEntry :=
  kvPut store key data (dataTtlOf options)

/-- `fetchDataFromKv(env, key)` (lines 123-125). -/
def fetchDataFromKv (store : List KvEntry) (key : String) : Option String :=
  kvGet store key

/-- `savePageToKv(env, key, response, options)` (lines 73-87): reads the
response body text and puts it; any failure of the read or the put is caught
and surfaced as a rejected promise (modelled by `Except.error`).  `putFails`
models whether the host KV operation throws. -/
def savePageToKv (putFails : Bool) (store : List KvEntry) (key bodyText : String)
    (options : Option KvOptions) : Except Unit (List KvEntry) :=
  if putFails then .error ()
  else .ok (kvPut store key bodyText (pageTtlOf options))

/-- `fetchPageFromKv(env, key)` (lines 95-97). -/
def fetchPageFromKv (store : List KvEntry) (key : String) : Option String :=
  kvGet store key

/-! ## The `auto` pipeline -/

/-- The grid data object as the pipeline inspects it: an optional `status`
string, an optional `level` string and an optional `region` string (other
fields of the upstream object are never read). -/
structure GridData where
  status : Option String
  level : Option String
  region : Option String
deriving DecidableEq, Repr

/-- The origin response as the pipeline reads it: its body text, the value of
`headers.get("content-type")`, and whatever the object-spread
`{...response.headers}` contributes to a header literal. -/
structure OriginResponse where
  body : String
  contentType : Option String
  hdrs : List (String × String)
deriving DecidableEq, Repr

/-- The per-level rewriters of `config.htmlChanges`.  An `HTMLRewriter` is
embedded as its body transform `String → String`; its `.on(...)` registration
only mutates the rewriter and is dropped. -/
structure HtmlChanges where
  low : Option (String → String)
  moderate : Option (String → String)
  high : Option (String → String)

/-- The configuration object of `auto` (only the fields the code reads). -/
structure AutoConfig where
  contentType : Option (List String)
  ignoreRoutes : Option (List String)
  ignoreGawCookie : Option String
  htmlChanges : Option HtmlChanges
  locationType : Option String
  dev : Bool
  kvCacheData : Bool
  kvCachePage : Bool
  debug : Option String

/-- The host environment of one `auto` invocation: the request, the outcomes
of every host call the pipeline can make (each of which can throw, modelled by
`Except`), and the two KV namespaces. -/
structure AutoEnv where
  request : JsRequest
  /-- Outcome of the dev-mode URL rewrite (`new URL(request.url)` and the
  hostname/port/protocol assignments); consulted only when `config.dev`. -/
  devUrl : Except Unit String
  /-- Outcome of `fetch(request.url)`. -/
  originFetch : Except Unit OriginResponse
  /-- Outcome of the `fetch(request)` performed by the top-level catch. -/
  refetch : Except Unit OriginResponse
  dataKv : List KvEntry
  pageKv : List KvEntry
  /-- `JSON.parse` applied to a string read from the data KV; an exception is
  caught by the pipeline's local try/catch. -/
  parseGrid : String → Except Unit GridData
  /-- `JSON.stringify` applied to a grid data object. -/
  stringifyGrid : GridData → String
  /-- `JSON.stringify` applied to the location object. -/
  stringifyLoc : LocationResult → String
  /-- Outcome of the upstream classification call `gridIntensity.check(...)`. -/
  apiResult : Except Unit GridData
  /-- Whether `savePageToKv`'s internal try fails (its promise rejects). -/
  pagePutFails : Bool

/-- An outgoing response: body text plus the header object literal the code
builds at the return site (later entries overwrite earlier ones). -/
structure JsResponse where
  body : String
  headers : List (String × String)
deriving DecidableEq, Repr

def mkResp (body : String) (headers : List (String × String)) : JsResponse :=
  ⟨body, headers⟩

/-- Lookup in a JS object literal built by spreads: the LAST entry for a key
wins, mirroring later spread entries overwriting earlier ones. -/
def objGet (l : List (String × String)) (k : String) : Option String :=
  match l with
  | [] => none
  | (k', v) :: rest =>
    match objGet rest k with
    | some v' => some v'
    | none => if k' == k then some v else none

/-- Observation trace of one `auto` invocation: upstream classification calls,
data-KV writes, page-KV reads/writes, and the `gridData.level` in scope when
the page cache was consulted. -/
structure Trace where
  apiCalls : Nat
  dataPuts : List KvEntry
  pageGets : List String
  pagePuts : List KvEntry
  levelUsed : Option (Option String)
deriving DecidableEq, Repr

def emptyTrace : Trace := ⟨0, [], [], [], none⟩

def oneApiCall : Trace := ⟨1, [], [], [], none⟩

/-- Outcome of the pipeline body (the code inside `auto`'s try): either a
response, or a thrown exception carrying the `debugHeaders` accumulated at the
throw point (the variable is declared outside the try, so the catch sees it). -/
structure PipeOut where
  result : Except (List (String × String)) JsResponse
  trace : Trace

def effDebug (cfg : AutoConfig) : String := truthyGetD cfg.debug "none"

/-- `config?.contentType || ["text/html"]`: an array, even an empty one, is
truthy, so any supplied list is kept. -/
def effTypes (cfg : AutoConfig) : List String := cfg.contentType.getD ["text/html"]

def effRoutes (cfg : AutoConfig) : List String := cfg.ignoreRoutes.getD []

def effIgnoreCookie (cfg : AutoConfig) : String :=
  truthyGetD cfg.ignoreGawCookie "gaw-ignore"

def effChanges (cfg : AutoConfig) : HtmlChanges := cfg.htmlChanges.getD ⟨none, none, none⟩

def effLocType (cfg : AutoConfig) : String := truthyGetD cfg.locationType "latlon"

/-- Append debug headers only when `debug` is `"full"` or `"headers"`. -/
def ifDebugHdr (debugS : String) (dbg add : List (String × String)) :
    List (String × String) :=
  if debugS == "full" || debugS == "headers" then dbg ++ add else dbg

/-- `cookies && cookies.includes(sub)`. -/
def hasCookieSub (cookie : Option String) (sub : String) : Bool :=
  match cookie with
  | none => false
  | some c => c != "" && strContains c sub

/-- The request the pipeline works with after the dev-mode rewrite: in dev
mode the URL is replaced by the rewritten one (`new Request(url, request)`
keeps the headers). -/
def effRequest (cfg : AutoConfig) (env : AutoEnv) : JsRequest :=
  if cfg.dev then
    match env.devUrl with
    | .ok u => { env.request with url := u }
    | .error _ => env.request
  else env.request

/-- Whether the content type passes the stage-1 guard: the header must be
truthy and case-insensitively contain one of the accepted types. -/
def ctAccepted (types : List String) (ct : Option String) : Bool :=
  jsT ct && types.any (fun t => strContains (lowerStr (ct.getD "")) (lowerStr t))

/-- The rewriter the manual-override cookie branch selects (lines 259-266). -/
def manualRewriterOf (cfg : AutoConfig) (cookie : Option String) :
    Option (String → String) :=
  if hasCookieSub cookie "gaw-manual-view=low" then (effChanges cfg).low
  else if hasCookieSub cookie "gaw-manual-view=moderate" then (effChanges cfg).moderate
  else if hasCookieSub cookie "gaw-manual-view=high" then (effChanges cfg).high
  else none

/-- The `"Content-Encoding": "gzip"` entry every return site adds. -/
def ceGzip : String × String := ("Content-Encoding", "gzip")

/-- The data-cache key (lines 345-349 and 413-417): `"{lat}_{lon}"` when both
coordinates are truthy, else the country string. -/
def dataKeyOf (location : LocationResult) : String :=
  if jsT location.lat && jsT location.lon then
    jsToStr location.lat ++ "_" ++ jsToStr location.lon
  else jsToStr location.country

/-- The page-cache key (lines 434-437 and 509-513):
`"{gridData.level}_{request.url}"`. -/
def pageKeyOf (g : GridData) (url : String) : String :=
  jsToStr g.level ++ "_" ++ url

/-- The cached grid data after the `kvCacheData` read block (lines 342-366):
`JSON.parse(null)` yields `null` and a parse exception is caught locally, both
leaving an object with a falsy `status`. -/
def cachedGridOf (cfg : AutoConfig) (env : AutoEnv) (location : LocationResult) :
    Option GridData :=
  if cfg.kvCacheData then
    match kvGet env.dataKv (dataKeyOf location) with
    | none => none
    | some s =>
      match env.parseGrid s with
      | .ok g => some g
      | .error _ => none
  else none

/-- Whether the cached grid data has a truthy `status` (`gridData?.status`). -/
def cachedTruthyOf (cfg : AutoConfig) (env : AutoEnv) (location : LocationResult) :
    Bool :=
  match cachedGridOf cfg env location with
  | some g => jsT g.status
  | none => false

/-- The transform-selection chain (lines 462-486): the rewriter for the
classification level, provided one is configured for it.
`rewriter.on("gaw-info-bar", ...)` only registers a handler on the selected
rewriter and is dropped. -/
def levelRewriterOf (cfg : AutoConfig) (g : GridData) : Option (String → String) :=
  if g.level == some "low" && (effChanges cfg).low.isSome then (effChanges cfg).low
  else if g.level == some "moderate" && (effChanges cfg).moderate.isSome then
    (effChanges cfg).moderate
  else if g.level == some "high" && (effChanges cfg).high.isSome then (effChanges cfg).high
  else none

/-- The transform-and-persist tail of the pipeline (lines 462-533).  The
`savePageToKv` call is awaited, so its rejection throws (lines 506-514). -/
def transformStage (cfg : AutoConfig) (env : AutoEnv) (debugS : String)
    (req : JsRequest) (resp : OriginResponse) (ctv : String) (g : GridData)
    (dbg : List (String × String)) (tr : Trace) : PipeOut :=
  match levelRewriterOf cfg g with
  | some f =>
    let gawBody := f resp.body
    let gawHdrs := resp.hdrs ++ ("Content-Type", ctv) :: ceGzip :: dbg
    if cfg.kvCachePage then
      if env.pagePutFails then ⟨.error dbg, tr⟩
      else
        ⟨.ok (mkResp gawBody gawHdrs),
         { tr with pagePuts := [⟨pageKeyOf g req.url, gawBody, pageTtlOf none⟩] }⟩
    else ⟨.ok (mkResp gawBody gawHdrs), tr⟩
  | none =>
    let dbgN := ifDebugHdr debugS dbg [("gaw-applied", "no-grid-aware")]
    ⟨.ok (mkResp resp.body (resp.hdrs ++ ceGzip :: dbgN)), tr⟩

/-- The `gaw-applied: auto` debug block and the page-cache read (lines
423-458), continuing into the transform stage on a miss. -/
def pageStage (cfg : AutoConfig) (env : AutoEnv) (debugS : String)
    (req : JsRequest) (resp : OriginResponse) (ctv : String)
    (location : LocationResult) (g : GridData)
    (dbg : List (String × String)) (tr : Trace) : PipeOut :=
  let dbg3 := ifDebugHdr debugS dbg
    [("gaw-applied", "auto"), ("gaw-grid-data", env.stringifyGrid g),
     ("gaw-location", env.stringifyLoc location)]
  let tr := { tr with levelUsed := some g.level }
  if cfg.kvCachePage then
    let key := pageKeyOf g req.url
    let tr2 := { tr with pageGets := [key] }
    let dbg4 := ifDebugHdr debugS dbg3 [("gaw-page-source", "workers kv")]
    match kvGet env.pageKv key with
    | some cachedBody =>
      ⟨.ok (mkResp cachedBody
        (resp.hdrs ++ ceGzip :: ("Content-Type", ctv) :: dbg4)), tr2⟩
    | none => transformStage cfg env debugS req resp ctv g dbg4 tr2
  else transformStage cfg env debugS req resp ctv g dbg3 tr

/-- The fresh-fetch path of the classification stage (lines 369-421): one
upstream call; an error-status result exits with the unmodified body before
any data-cache write; otherwise a fresh result is written back when data
caching is on. -/
def apiStage (cfg : AutoConfig) (env : AutoEnv) (debugS : String)
    (req : JsRequest) (resp : OriginResponse) (ctv : String)
    (location : LocationResult) (dbg1 : List (String × String)) : PipeOut :=
  let dbg2 := ifDebugHdr debugS dbg1 [("gaw-data-source", "api")]
  match env.apiResult with
  | .error _ => ⟨.error dbg2, oneApiCall⟩
  | .ok g =>
    if g.status == some "error" then
      let dbg3 := ifDebugHdr debugS dbg2 [("gaw-applied", "error-grid-data")]
      ⟨.ok (mkResp resp.body (resp.hdrs ++ ceGzip :: dbg3)), oneApiCall⟩
    else
      let tr1 : Trace :=
        if cfg.kvCacheData then
          if jsT location.lat && jsT location.lon then
            { oneApiCall with
              dataPuts := [⟨dataKeyOf location, env.stringifyGrid g, dataTtlOf none⟩] }
          else if jsT location.country then
            { oneApiCall with
              dataPuts := [⟨dataKeyOf location, env.stringifyGrid g, dataTtlOf none⟩] }
          else oneApiCall
        else oneApiCall
      pageStage cfg env debugS req resp ctv location g dbg2 tr1

/-- The classification stage (lines 340-421): consult the data cache, use a
cached result with truthy status, otherwise take the fresh-fetch path. -/
def classStage (cfg : AutoConfig) (env : AutoEnv) (debugS : String)
    (req : JsRequest) (resp : OriginResponse) (ctv : String)
    (location : LocationResult) (dbg1 : List (String × String)) : PipeOut :=
  if cachedTruthyOf cfg env location then
    match cachedGridOf cfg env location with
    | some g =>
      let dbg2 := ifDebugHdr debugS dbg1 [("gaw-data-source", "workers-kv")]
      pageStage cfg env debugS req resp ctv location g dbg2 emptyTrace
    | none => apiStage cfg env debugS req resp ctv location dbg1
  else apiStage cfg env debugS req resp ctv location dbg1

/-- The `gaw-location` debug headers (lines 319-338). -/
def locDbg (debugS : String) (location : LocationResult) : List (String × String) :=
  if jsT location.lat && jsT location.lon then
    ifDebugHdr debugS []
      [("gaw-location",
        "lat: " ++ jsToStr location.lat ++ ", lon: " ++ jsToStr location.lon)]
  else
    ifDebugHdr debugS [] [("gaw-location", jsToStr location.country)]

/-- The location stage (lines 294-338): extract the location, exit unmodified
when neither country nor both coordinates are truthy, otherwise record the
location debug header and continue. -/
def locationStage (cfg : AutoConfig) (env : AutoEnv) (debugS : String)
    (req : JsRequest) (resp : OriginResponse) (ctv : String) : PipeOut :=
  let location := getLocation req (some ⟨some (effLocType cfg)⟩)
  if !jsT location.country && (!jsT location.lat || !jsT location.lon) then
    let dbg := ifDebugHdr debugS [] [("gaw-applied", "no-location-found")]
    ⟨.ok (mkResp resp.body (resp.hdrs ++ ceGzip :: dbg)), emptyTrace⟩
  else
    classStage cfg env debugS req resp ctv location (locDbg debugS location)

/-- The cookie stages (lines 254-291): the manual-override branch calls
`rewriter.transform(...)` on whatever it looked up, throwing a `TypeError`
when no recognized level or no configured rewriter matched; then the opt-out
cookie guard. -/
def cookieStage (cfg : AutoConfig) (env : AutoEnv) (debugS : String)
    (req : JsRequest) (resp : OriginResponse) (ctv : String) : PipeOut :=
  if hasCookieSub req.cookie "gaw-manual-view" then
    match manualRewriterOf cfg req.cookie with
    | none => ⟨.error [], emptyTrace⟩
    | some f =>
      ⟨.ok (mkResp (f resp.body)
        (resp.hdrs ++ ("Content-Type", ctv) :: ceGzip :: [])), emptyTrace⟩
  else if hasCookieSub req.cookie (effIgnoreCookie cfg) then
    let dbg := ifDebugHdr debugS [] [("gaw-applied", "skip-cookie")]
    ⟨.ok (mkResp resp.body (resp.hdrs ++ ceGzip :: dbg)), emptyTrace⟩
  else locationStage cfg env debugS req resp ctv

/-- The content-type guard (lines 205-252): a falsy header or a header
matching no accepted type exits with the unmodified body. -/
def contentStage (cfg : AutoConfig) (env : AutoEnv) (debugS : String)
    (req : JsRequest) (resp : OriginResponse) : PipeOut :=
  if !jsT resp.contentType then
    let dbg := ifDebugHdr debugS [] [("gaw-applied", "no-content-type")]
    ⟨.ok (mkResp resp.body (resp.hdrs ++ ceGzip :: dbg)), emptyTrace⟩
  else
    let ctv := resp.contentType.getD ""
    if !(effTypes cfg).any (fun t => strContains (lowerStr ctv) (lowerStr t)) then
      let dbg := ifDebugHdr debugS [] [("gaw-applied", "skip-content-type")]
      ⟨.ok (mkResp resp.body
        (resp.hdrs ++ ("Content-Type", ctv) :: ceGzip :: dbg)), emptyTrace⟩
    else cookieStage cfg env debugS req resp ctv

/-- The body of `auto`'s try block (lines 168-533).  The ignore-routes
`forEach` (lines 197-202) has no effect on control flow: `return fetch(request)`
only returns from the iteration callback, so it is embedded as a no-op. -/
def autoPipeline (cfg : AutoConfig) (env : AutoEnv) : PipeOut :=
  let debugS := effDebug cfg
  if cfg.dev && !(match env.devUrl with | .ok _ => true | .error _ => false) then
    ⟨.error [], emptyTrace⟩
  else
    let req := effRequest cfg env
    match env.originFetch with
    | .error _ => ⟨.error [], emptyTrace⟩
    | .ok resp => contentStage cfg env debugS req resp

/-- `auto(request, env, ctx, config)` (lines 164-557): the try body plus the
top-level catch, which re-fetches the request and passes its body through with
an `error-failed` diagnostic.  An `Except.error` result means the returned
promise itself rejects (only possible when the catch's own fetch rejects). -/
def auto (cfg : AutoConfig) (env : AutoEnv) : PipeOut :=
  match autoPipeline cfg env with
  | ⟨.ok r, tr⟩ => ⟨.ok r, tr⟩
  | ⟨.error dbg, tr⟩ =>
    match env.refetch with
    | .error _ => ⟨.error dbg, tr⟩
    | .ok er =>
      let dbgE := ifDebugHdr (effDebug cfg) dbg [("gaw-applied", "error-failed")]
      ⟨.ok (mkResp er.body (er.hdrs ++ ceGzip :: dbgE)), tr⟩

/-! ## Helper lemmas -/

theorem objGet_append (a b : List (String × String)) (k : String) :
    objGet (a ++ b) k =
      match objGet b k with
      | some v => some v
      | none => objGet a k := by
  induction a with
  | nil => cases hb : objGet b k <;> simp [objGet, hb]
  | cons hd tl ih =>
    obtain ⟨k', v'⟩ := hd
    simp only [List.cons_append, objGet]
    cases hb : objGet b k <;> cases ht : objGet tl k <;> simp [ih, hb, ht]

theorem objGet_last (l : List (String × String)) (k v : String) :
    objGet (l ++ [(k, v)]) k = some v := by
  rw [objGet_append]
  simp [objGet]

theorem objGet_cons_append_last (a : List (String × String)) (x : String × String)
    (b : List (String × String)) (k v : String) :
    objGet (a ++ x :: (b ++ [(k, v)])) k = some v := by
  have h : a ++ x :: (b ++ [(k, v)]) = (a ++ x :: b) ++ [(k, v)] := by simp
  rw [h, objGet_last]

/-- An `ok` pipeline outcome passes through `auto` unchanged. -/
theorem auto_of_pipeline_ok (cfg : AutoConfig) (env : AutoEnv) (r : JsResponse)
    (h : (autoPipeline cfg env).result = .ok r) :
    (auto cfg env).result = .ok r := by
  unfold auto
  rcases hp : autoPipeline cfg env with ⟨res, tr⟩
  rw [hp] at h
  simp only at h
  subst h
  rfl

/-- `auto` returns the pipeline's trace on every path. -/
theorem auto_trace (cfg : AutoConfig) (env : AutoEnv) :
    (auto cfg env).trace = (autoPipeline cfg env).trace := by
  unfold auto
  rcases hp : autoPipeline cfg env with ⟨res, tr⟩
  cases res with
  | ok r => rfl
  | error d => cases env.refetch <;> rfl

/-- An erroring pipeline outcome makes `auto` return the catch's re-fetched
response (when that fetch succeeds). -/
theorem auto_of_pipeline_error (cfg : AutoConfig) (env : AutoEnv)
    (e : List (String × String)) (er : OriginResponse)
    (h : (autoPipeline cfg env).result = .error e)
    (hre : env.refetch = .ok er) :
    (auto cfg env).result =
      .ok (mkResp er.body
        (er.hdrs ++ ceGzip :: ifDebugHdr (effDebug cfg) e [("gaw-applied", "error-failed")])) := by
  unfold auto
  rcases hp : autoPipeline cfg env with ⟨res, tr⟩
  rw [hp] at h
  simp only at h
  subst h
  rw [hre]

/-- The pipeline steps to the content-type guard once the dev-mode rewrite
(if any) and the origin fetch succeed. -/
theorem pipeline_eq_contentStage (cfg : AutoConfig) (env : AutoEnv)
    (resp : OriginResponse)
    (hdev : cfg.dev = true → ∃ u, env.devUrl = .ok u)
    (hfetch : env.originFetch = .ok resp) :
    autoPipeline cfg env = contentStage cfg env (effDebug cfg) (effRequest cfg env) resp := by
  cases hd : cfg.dev with
  | false => simp [autoPipeline, hd, hfetch]
  | true =>
    obtain ⟨u, hu⟩ := hdev hd
    simp [autoPipeline, hd, hu, hfetch]

/-- The content-type guard steps to the cookie stage when the content type is
accepted. -/
theorem contentStage_eq_cookieStage (cfg : AutoConfig) (env : AutoEnv)
    (debugS : String) (req : JsRequest) (resp : OriginResponse)
    (hacc : ctAccepted (effTypes cfg) resp.contentType = true) :
    contentStage cfg env debugS req resp =
      cookieStage cfg env debugS req resp (resp.contentType.getD "") := by
  unfold ctAccepted at hacc
  rw [Bool.and_eq_true] at hacc
  obtain ⟨hjs, hany⟩ := hacc
  simp [contentStage, hjs, hany]

/-! ## Claim C2: the top-level catch -/

/-- **C2.** Any exception thrown inside the pipeline body is caught once at
the top level: whenever the try body throws (with `debugHeaders` `e` at the
throw point) and the catch's best-effort `fetch(request)` succeeds, `auto`
returns that re-fetched origin response (its body passed through unchanged)
rather than propagating the exception, annotated — when debug mode emits
headers — with the `gaw-applied: error-failed` diagnostic. -/
theorem auto_catches_pipeline_errors (cfg : AutoConfig) (env : AutoEnv)
    (e : List (String × String)) (er : OriginResponse)
    (h : (autoPipeline cfg env).result = .error e)
    (hre : env.refetch = .ok er) :
    (auto cfg env).result =
      .ok (mkResp er.body
        (er.hdrs ++ ceGzip :: ifDebugHdr (effDebug cfg) e [("gaw-applied", "error-failed")])) ∧
    ((effDebug cfg = "full" ∨ effDebug cfg = "headers") →
      objGet (er.hdrs ++ ceGzip :: ifDebugHdr (effDebug cfg) e [("gaw-applied", "error-failed")])
        "gaw-applied" = some "error-failed") := by
  refine ⟨auto_of_pipeline_error cfg env e er h hre, ?_⟩
  · intro hd
    have hdbg : ifDebugHdr (effDebug cfg) e [("gaw-applied", "error-failed")] =
        e ++ [("gaw-applied", "error-failed")] := by
      rcases hd with hd | hd <;> simp [ifDebugHdr, hd]
    rw [hdbg]
    have : er.hdrs ++ ceGzip :: (e ++ [("gaw-applied", "error-failed")]) =
        (er.hdrs ++ ceGzip :: e) ++ [("gaw-applied", "error-failed")] := by
      simp
    rw [this, objGet_last]

/-- Configuration for the C2 witness: debug headers on. -/
def c2Cfg : AutoConfig :=
  ⟨none, none, none, none, none, false, false, false, some "headers"⟩

/-- Environment for the C2 witness: the origin fetch itself throws; the
catch-path re-fetch succeeds. -/
def c2Env : AutoEnv :=
  ⟨⟨"https://example.com/", none, none⟩, .error (), .error (), .ok ⟨"REF", none, []⟩,
   [], [], fun _ => .error (), fun _ => "{}", fun _ => "{}", .error (), false⟩

/-- Witness for C2 at a concrete erroring environment. -/
theorem auto_catches_pipeline_errors_witness :
    (auto c2Cfg c2Env).result =
      .ok (mkResp "REF"
        ([] ++ ceGzip :: ifDebugHdr (effDebug c2Cfg) [] [("gaw-applied", "error-failed")])) ∧
    ((effDebug c2Cfg = "full" ∨ effDebug c2Cfg = "headers") →
      objGet ([] ++ ceGzip :: ifDebugHdr (effDebug c2Cfg) [] [("gaw-applied", "error-failed")])
        "gaw-applied" = some "error-failed") := by
  exact auto_catches_pipeline_errors c2Cfg c2Env [] ⟨"REF", none, []⟩ rfl rfl

/-! ## Claim C4: the content-type guard fails closed -/

/-- **C4.** Whenever the origin response carries no (truthy) content-type
header, or its content-type matches none of the configured accepted types —
in particular with an empty accepted-types list — `auto` returns the origin
body unchanged.  `ctAccepted` resolves both a missing header and an empty
list to `false` (reject), never to accept-by-default. -/
theorem content_guard_passthrough (cfg : AutoConfig) (env : AutoEnv)
    (resp : OriginResponse)
    (hdev : cfg.dev = true → ∃ u, env.devUrl = .ok u)
    (hfetch : env.originFetch = .ok resp)
    (hct : ctAccepted (effTypes cfg) resp.contentType = false) :
    ∃ r, (auto cfg env).result = .ok r ∧ r.body = resp.body := by
  have hpipe := pipeline_eq_contentStage cfg env resp hdev hfetch
  cases hjs : jsT resp.contentType with
  | false =>
    have hok : (autoPipeline cfg env).result =
        .ok (mkResp resp.body
          (resp.hdrs ++ ceGzip ::
            ifDebugHdr (effDebug cfg) [] [("gaw-applied", "no-content-type")])) := by
      rw [hpipe]
      simp [contentStage, hjs]
    exact ⟨_, auto_of_pipeline_ok cfg env _ hok, rfl⟩
  | true =>
    have hany : (effTypes cfg).any
        (fun t => strContains (lowerStr (resp.contentType.getD "")) (lowerStr t)) = false := by
      unfold ctAccepted at hct
      rwa [hjs, Bool.true_and] at hct
    have hok : (autoPipeline cfg env).result =
        .ok (mkResp resp.body
          (resp.hdrs ++ ("Content-Type", resp.contentType.getD "") :: ceGzip ::
            ifDebugHdr (effDebug cfg) [] [("gaw-applied", "skip-content-type")])) := by
      rw [hpipe]
      simp [contentStage, hjs, hany]
    exact ⟨_, auto_of_pipeline_ok cfg env _ hok, rfl⟩

/-- Configuration for the C4 witness: an explicitly empty accepted-types
list. -/
def c4Cfg : AutoConfig :=
  ⟨some [], none, none, none, none, false, false, false, none⟩

/-- Environment for the C4 witness: an HTML origin response (whose type an
empty accepted list must still reject). -/
def c4Env : AutoEnv :=
  ⟨⟨"https://example.com/", none, none⟩, .error (),
   .ok ⟨"BODY", some "text/html", []⟩, .error (),
   [], [], fun _ => .error (), fun _ => "{}", fun _ => "{}", .error (), false⟩

/-- Witness for C4: with an empty accepted-types list the HTML origin body is
passed through unmodified. -/
theorem content_guard_passthrough_witness :
    ∃ r, (auto c4Cfg c4Env).result = .ok r ∧ r.body = "BODY" := by
  exact content_guard_passthrough c4Cfg c4Env ⟨"BODY", some "text/html", []⟩
    (fun h => absurd h (by decide)) rfl (by decide)

/-! ## Claim C5: `getLocation` -/

/-- **C5.** The latlon example of the claim fails on the code: with
`cf.latitude = 1` and `cf.longitude = 2` (numbers, as the repository's own
test and type declarations use) and `mode: "latlon"`, `getLocation` returns
`{status:"error"}` rather than the claimed `{status:"success", lat:1, lon:2}`,
because the implementation keeps a coordinate only when
`typeof value === "string"`. -/
theorem getLocation_numeric_latlon_is_error :
    getLocation ⟨"", none, some ⟨none, some (.num 1), some (.num 2)⟩⟩
      (some ⟨some "latlon"⟩) = ⟨"error", none, none, none⟩ := by
  rfl

/-! ## Claim C8: KV round-trip and TTL defaults -/

/-- **C8, counterexample.** An explicitly supplied numeric `expirationTtl` of
`0` is NOT honored as given: both save helpers treat it as falsy and fall back
to their defaults (3600 resp. 86400 seconds). -/
theorem saveToKv_ttl_zero_not_honored :
    (saveDataToKv [] "DE" "v" (some ⟨some 0⟩)).head?.map KvEntry.ttl = some 3600 ∧
    savePageToKv false [] "k" "b" (some ⟨some 0⟩) = .ok [⟨"k", "b", 86400⟩] ∧
    (3600 : Int) ≠ 0 := by
  refine ⟨rfl, rfl, by decide⟩

/-- **C8, amended.** `saveDataToKv` followed by `fetchDataFromKv` on the same
key returns the stored serialized value; with no options `saveDataToKv` writes
with `expirationTtl` 3600 and `savePageToKv` with 86400 seconds; and an
explicitly supplied NONZERO numeric `expirationTtl` is honored exactly as
given (a supplied TTL of `0` is falsy in the source's
`options?.expirationTtl && ...` check and falls back to the default). -/
theorem saveFetchKv_roundtrip_and_ttl :
    (∀ (store : List KvEntry) (k v : String) (opts : Option KvOptions),
      fetchDataFromKv (saveDataToKv store k v opts) k = some v) ∧
    (∀ (store : List KvEntry) (k v : String),
      saveDataToKv store k v none = ⟨k, v, 3600⟩ :: store) ∧
    (∀ (store : List KvEntry) (k b : String),
      savePageToKv false store k b none = .ok (⟨k, b, 86400⟩ :: store)) ∧
    (∀ t : Int, t ≠ 0 →
      (∀ (store : List KvEntry) (k v : String),
        saveDataToKv store k v (some ⟨some t⟩) = ⟨k, v, t⟩ :: store) ∧
      (∀ (store : List KvEntry) (k b : String),
        savePageToKv false store k b (some ⟨some t⟩) = .ok (⟨k, b, t⟩ :: store))) := by
  refine ⟨fun store k v opts => ?_, fun store k v => rfl, fun store k b => rfl,
    fun t ht => ⟨fun store k v => ?_, fun store k b => ?_⟩⟩
  · simp [fetchDataFromKv, saveDataToKv, kvGet, kvPut, List.find?]
  · simp [saveDataToKv, kvPut, dataTtlOf, bne, ht]
  · simp [savePageToKv, kvPut, pageTtlOf, bne, ht]

/-- Witness for the amended C8 theorem at concrete inputs. -/
theorem saveFetchKv_roundtrip_and_ttl_witness :
    fetchDataFromKv (saveDataToKv [] "DE" "json" none) "DE" = some "json" ∧
    saveDataToKv [] "DE" "json" (some ⟨some 42⟩) = [⟨"DE", "json", 42⟩] := by
  exact ⟨saveFetchKv_roundtrip_and_ttl.1 [] "DE" "json" none,
    (saveFetchKv_roundtrip_and_ttl.2.2.2 42 (by decide)).1 [] "DE" "json"⟩

/-! ## Claim C1: the ignore-routes guard does not short-circuit -/

/-- Configuration for the C1 run: `ignoreRoutes: ["admin"]`, a `low`-level
transform, country-mode location, no caching, no debug. -/
def c1Cfg : AutoConfig :=
  ⟨none, some ["admin"], none, some ⟨some (fun b => "MOD" ++ b), none, none⟩,
   some "country", false, false, false, none⟩

/-- Environment for the C1 run: the request URL contains the ignored-route
substring `"admin"`; the origin serves HTML; the upstream call classifies the
grid as `low`. -/
def c1Env : AutoEnv :=
  ⟨⟨"https://example.com/admin/page", none, some ⟨some (.str "DE"), none, none⟩⟩,
   .error (), .ok ⟨"BODY", some "text/html", []⟩, .ok ⟨"REF", none, []⟩, [], [],
   fun _ => .error (), fun _ => "{}", fun _ => "{}",
   .ok ⟨some "success", some "low", none⟩, false⟩

/-- **C1.** The ignore-routes guard does not short-circuit the pipeline: for a
request whose URL contains the configured ignored-route substring, `auto`
still makes the upstream classification call (once) and returns the
TRANSFORMED body, not the unmodified origin response — the `return` inside
`ignoreRoutes.forEach` only exits the iteration callback. -/
theorem ignored_route_does_not_short_circuit :
    strContains c1Env.request.url "admin" = true ∧
    (auto c1Cfg c1Env).trace.apiCalls = 1 ∧
    (auto c1Cfg c1Env).result.map JsResponse.body = .ok "MODBODY" ∧
    ("MODBODY" : String) ≠ "BODY" := by
  refine ⟨by decide, rfl, rfl, by decide⟩

/-- The default accepted content type matches itself (used to step the
content-type guard in symbolic pipeline runs). -/
theorem strContains_html_html : strContains "text/html" "text/html" = true := by decide

/-- `lowerStr` fixes the lowercase literal `"text/html"`. -/
theorem lowerStr_html : lowerStr "text/html" = "text/html" := by decide

/-! ## Claim C3: the response depends on the page-persist outcome -/

/-- Configuration for the C3 runs: page caching enabled, a `low`-level
transform, country-mode location. -/
def c3Cfg (f : String → String) : AutoConfig :=
  ⟨none, none, none, some ⟨some f, none, none⟩, some "country", false, false, true, none⟩

/-- Environment family for the C3 runs: HTML origin response with body `ob`,
catch-path re-fetch body `rb`, empty page cache, upstream classification
`low`, and a page-persist that fails iff `pf`. -/
def c3Env (ob rb url : String) (pf : Bool) : AutoEnv :=
  ⟨⟨url, none, some ⟨some (.str "DE"), none, none⟩⟩, .error (),
   .ok ⟨ob, some "text/html", []⟩, .ok ⟨rb, none, []⟩, [], [],
   fun _ => .error (), fun _ => "{}", fun _ => "{}",
   .ok ⟨some "success", some "low", none⟩, pf⟩

/-- **C3, counterexample.** A failure of `savePageToKv` IS observable by the
end user: with the persist failing, `auto` returns the catch-path re-fetched
body `"REF"`, which differs from the transformed body returned when the
persist succeeds — the awaited `savePageToKv` rejection propagates to the
top-level catch. -/
theorem persist_failure_changes_response :
    (auto (c3Cfg (fun b => "MOD" ++ b))
      (c3Env "ORIG" "REF" "https://example.com/" true)).result.map JsResponse.body
      = .ok "REF" ∧
    (auto (c3Cfg (fun b => "MOD" ++ b))
      (c3Env "ORIG" "REF" "https://example.com/" false)).result.map JsResponse.body
      = .ok "MODORIG" ∧
    ("REF" : String) ≠ "MODORIG" := by
  refine ⟨rfl, rfl, by decide⟩

/-- **C3, amended.** On the transform-and-persist path with page caching
enabled, the response `auto` returns DOES depend on the persist outcome: when
`savePageToKv` succeeds the transformed response is returned, but when it
fails its rejection propagates to the top-level catch and the user receives
the re-fetched, untransformed origin response (still a page, never a thrown
error, for any transform, bodies and URL). -/
theorem persist_outcome_determines_response (f : String → String)
    (ob rb url : String) (pf : Bool) :
    (auto (c3Cfg f) (c3Env ob rb url pf)).result =
      .ok (if pf then mkResp rb [ceGzip]
           else mkResp (f ob) [("Content-Type", "text/html"), ceGzip]) := by
  cases pf <;>
    simp [auto, autoPipeline, effRequest, effDebug, truthyGetD, contentStage, cookieStage,
      locationStage, classStage, apiStage, pageStage, transformStage, effTypes, effChanges,
      effLocType, effIgnoreCookie, manualRewriterOf, hasCookieSub, cachedTruthyOf, cachedGridOf,
      getLocation, jsT, asStr, ifDebugHdr, mkResp, kvGet, pageKeyOf, dataKeyOf, jsToStr,
      oneApiCall, emptyTrace, ceGzip, c3Cfg, c3Env, lowerStr_html, strContains_html_html,
      locDbg, levelRewriterOf, List.find?]

/-- The cookie stage steps to the location stage when neither the manual-view
nor the opt-out cookie is present. -/
theorem cookieStage_eq_locationStage (cfg : AutoConfig) (env : AutoEnv)
    (debugS : String) (req : JsRequest) (resp : OriginResponse) (ctv : String)
    (hman : hasCookieSub req.cookie "gaw-manual-view" = false)
    (hign : hasCookieSub req.cookie (effIgnoreCookie cfg) = false) :
    cookieStage cfg env debugS req resp ctv = locationStage cfg env debugS req resp ctv := by
  simp [cookieStage, hman, hign]

/-- The location the pipeline works with. -/
def locOf (cfg : AutoConfig) (env : AutoEnv) : LocationResult :=
  getLocation (effRequest cfg env) (some ⟨some (effLocType cfg)⟩)

/-- The location stage steps to the classification stage when the location
guard passes. -/
theorem locationStage_eq_classStage (cfg : AutoConfig) (env : AutoEnv)
    (debugS : String) (req : JsRequest) (resp : OriginResponse) (ctv : String)
    (hloc : (!jsT (getLocation req (some ⟨some (effLocType cfg)⟩)).country &&
      (!jsT (getLocation req (some ⟨some (effLocType cfg)⟩)).lat ||
       !jsT (getLocation req (some ⟨some (effLocType cfg)⟩)).lon)) = false) :
    locationStage cfg env debugS req resp ctv =
      classStage cfg env debugS req resp ctv
        (getLocation req (some ⟨some (effLocType cfg)⟩))
        (locDbg debugS (getLocation req (some ⟨some (effLocType cfg)⟩))) := by
  simp [locationStage, hloc]

/-- The classification stage takes the fresh-fetch path when no cached grid
data with truthy status is available. -/
theorem classStage_eq_apiStage (cfg : AutoConfig) (env : AutoEnv)
    (debugS : String) (req : JsRequest) (resp : OriginResponse) (ctv : String)
    (location : LocationResult) (dbg1 : List (String × String))
    (hcache : cachedTruthyOf cfg env location = false) :
    classStage cfg env debugS req resp ctv location dbg1 =
      apiStage cfg env debugS req resp ctv location dbg1 := by
  simp [classStage, hcache]

/-! ## Claim C10: manual-view cookie with no matching rewriter throws -/

/-- **C10.** When the cookie header contains `gaw-manual-view` but the
manual-override lookup yields no rewriter — no recognized level named, or the
named level has no configured `htmlChanges` transform — the branch's
`rewriter.transform(response.clone())` throws instead of returning its own
response, and the user receives the top-level catch's re-fetched origin
response. -/
theorem manual_view_no_rewriter_falls_back (cfg : AutoConfig) (env : AutoEnv)
    (resp er : OriginResponse)
    (hdev : cfg.dev = true → ∃ u, env.devUrl = .ok u)
    (hfetch : env.originFetch = .ok resp)
    (hacc : ctAccepted (effTypes cfg) resp.contentType = true)
    (hman : hasCookieSub (effRequest cfg env).cookie "gaw-manual-view" = true)
    (hrw : manualRewriterOf cfg (effRequest cfg env).cookie = none)
    (hre : env.refetch = .ok er) :
    (auto cfg env).result =
      .ok (mkResp er.body
        (er.hdrs ++ ceGzip :: ifDebugHdr (effDebug cfg) [] [("gaw-applied", "error-failed")])) := by
  have herr : (autoPipeline cfg env).result = .error [] := by
    rw [pipeline_eq_contentStage cfg env resp hdev hfetch,
      contentStage_eq_cookieStage cfg env (effDebug cfg) (effRequest cfg env) resp hacc]
    simp [cookieStage, hman, hrw]
  exact auto_of_pipeline_error cfg env [] er herr hre

/-- Configuration for the C10 witness: only a `low` transform is configured. -/
def c10Cfg : AutoConfig :=
  ⟨none, none, none, some ⟨some (fun b => "LOW" ++ b), none, none⟩,
   none, false, false, false, none⟩

/-- Environment for the C10 witness: the cookie requests the `high` manual
view, for which no transform is configured. -/
def c10Env : AutoEnv :=
  ⟨⟨"https://example.com/", some "gaw-manual-view=high", none⟩, .error (),
   .ok ⟨"BODY", some "text/html", []⟩, .ok ⟨"REF", none, []⟩,
   [], [], fun _ => .error (), fun _ => "{}", fun _ => "{}", .error (), false⟩

/-- Witness for C10 at a concrete request. -/
theorem manual_view_no_rewriter_falls_back_witness :
    (auto c10Cfg c10Env).result =
      .ok (mkResp "REF"
        ([] ++ ceGzip :: ifDebugHdr (effDebug c10Cfg) [] [("gaw-applied", "error-failed")])) := by
  exact manual_view_no_rewriter_falls_back c10Cfg c10Env
    ⟨"BODY", some "text/html", []⟩ ⟨"REF", none, []⟩
    (fun h => absurd h (by decide)) rfl (by decide) (by decide) rfl rfl

/-! ## Claim C6: upstream classification error fails open -/

/-- **C6.** When the upstream classification call returns a result with error
status, `auto` returns the unmodified origin body, performs no data-cache
write in that invocation, and — when debug mode emits headers — sets the
`gaw-applied: error-grid-data` diagnostic. -/
theorem api_error_fails_open (cfg : AutoConfig) (env : AutoEnv)
    (resp : OriginResponse) (g : GridData)
    (hdev : cfg.dev = true → ∃ u, env.devUrl = .ok u)
    (hfetch : env.originFetch = .ok resp)
    (hacc : ctAccepted (effTypes cfg) resp.contentType = true)
    (hman : hasCookieSub (effRequest cfg env).cookie "gaw-manual-view" = false)
    (hign : hasCookieSub (effRequest cfg env).cookie (effIgnoreCookie cfg) = false)
    (hloc : (!jsT (locOf cfg env).country &&
      (!jsT (locOf cfg env).lat || !jsT (locOf cfg env).lon)) = false)
    (hcache : cachedTruthyOf cfg env (locOf cfg env) = false)
    (hapi : env.apiResult = .ok g)
    (hgs : g.status = some "error") :
    ∃ r, (auto cfg env).result = .ok r ∧ r.body = resp.body ∧
      (auto cfg env).trace.dataPuts = [] ∧
      ((effDebug cfg = "full" ∨ effDebug cfg = "headers") →
        objGet r.headers "gaw-applied" = some "error-grid-data") := by
  have hres : autoPipeline cfg env =
      ⟨.ok (mkResp resp.body (resp.hdrs ++ ceGzip ::
        ifDebugHdr (effDebug cfg)
          (ifDebugHdr (effDebug cfg) (locDbg (effDebug cfg) (locOf cfg env))
            [("gaw-data-source", "api")])
          [("gaw-applied", "error-grid-data")])), oneApiCall⟩ := by
    rw [pipeline_eq_contentStage cfg env resp hdev hfetch,
      contentStage_eq_cookieStage cfg env (effDebug cfg) (effRequest cfg env) resp hacc,
      cookieStage_eq_locationStage cfg env (effDebug cfg) (effRequest cfg env) resp
        (resp.contentType.getD "") hman hign,
      locationStage_eq_classStage cfg env (effDebug cfg) (effRequest cfg env) resp
        (resp.contentType.getD "") hloc,
      classStage_eq_apiStage cfg env (effDebug cfg) (effRequest cfg env) resp
        (resp.contentType.getD "")
        (getLocation (effRequest cfg env) (some ⟨some (effLocType cfg)⟩))
        (locDbg (effDebug cfg)
          (getLocation (effRequest cfg env) (some ⟨some (effLocType cfg)⟩)))
        hcache]
    simp [apiStage, hapi, hgs, locOf]
  refine ⟨_, auto_of_pipeline_ok cfg env _ (by rw [hres]), rfl, ?_, ?_⟩
  · rw [auto_trace, hres]
    rfl
  · intro hd
    have hcond : (effDebug cfg == "full" || effDebug cfg == "headers") = true := by
      rcases hd with hd | hd <;> simp [hd]
    have hdbg : ifDebugHdr (effDebug cfg)
        (ifDebugHdr (effDebug cfg) (locDbg (effDebug cfg) (locOf cfg env))
          [("gaw-data-source", "api")])
        [("gaw-applied", "error-grid-data")] =
        (ifDebugHdr (effDebug cfg) (locDbg (effDebug cfg) (locOf cfg env))
          [("gaw-data-source", "api")]) ++ [("gaw-applied", "error-grid-data")] := by
      simp [ifDebugHdr, hcond]
    simp only [mkResp]
    rw [hdbg]
    exact objGet_cons_append_last resp.hdrs ceGzip _ "gaw-applied" "error-grid-data"

/-- Configuration for the C6 witness: debug headers on, country-mode location,
no caching. -/
def c6Cfg : AutoConfig :=
  ⟨none, none, none, none, some "country", false, false, false, some "headers"⟩

/-- Environment for the C6 witness: the upstream classification call answers
with an error status. -/
def c6Env : AutoEnv :=
  ⟨⟨"https://example.com/", none, some ⟨some (.str "DE"), none, none⟩⟩, .error (),
   .ok ⟨"BODY", some "text/html", []⟩, .error (),
   [], [], fun _ => .error (), fun _ => "{}", fun _ => "{}",
   .ok ⟨some "error", none, none⟩, false⟩

/-- Witness for C6 at a concrete erroring upstream call. -/
theorem api_error_fails_open_witness :
    (auto c6Cfg c6Env).result.map JsResponse.body = .ok "BODY" ∧
    (auto c6Cfg c6Env).trace.dataPuts = [] := by
  obtain ⟨r, h1, h2, h3, h4⟩ := api_error_fails_open c6Cfg c6Env
    ⟨"BODY", some "text/html", []⟩ ⟨some "error", none, none⟩
    (fun h => absurd h (by decide)) rfl (by decide) (by decide) (by decide)
    (by decide) rfl rfl rfl
  exact ⟨by rw [h1]; simp [Except.map, h2], h3⟩

/-! ## Claim C9: every returned response carries Content-Encoding gzip -/

/-- No entry of the list can override the `Content-Encoding` header. -/
def noCE (l : List (String × String)) : Prop :=
  ∀ p ∈ l, p.1 ≠ "Content-Encoding"

theorem noCE_nil : noCE [] := by
  intro p hp
  cases hp

theorem noCE_single (k v : String) (h : k ≠ "Content-Encoding") : noCE [(k, v)] := by
  intro p hp
  simp at hp
  subst hp
  exact h

theorem noCE_append (a b : List (String × String)) (h1 : noCE a) (h2 : noCE b) :
    noCE (a ++ b) := by
  intro p hp
  rcases List.mem_append.mp hp with h | h
  · exact h1 p h
  · exact h2 p h

theorem noCE_ifDebugHdr (s : String) (dbg add : List (String × String))
    (h1 : noCE dbg) (h2 : noCE add) : noCE (ifDebugHdr s dbg add) := by
  unfold ifDebugHdr
  split
  · exact noCE_append dbg add h1 h2
  · exact h1

theorem noCE_locDbg (s : String) (loc : LocationResult) : noCE (locDbg s loc) := by
  unfold locDbg
  split <;>
    exact noCE_ifDebugHdr s [] _ noCE_nil
      (noCE_single _ _ (by decide))

theorem objGet_none_of (l : List (String × String)) (k : String)
    (h : ∀ p ∈ l, p.1 ≠ k) : objGet l k = none := by
  induction l with
  | nil => rfl
  | cons hd tl ih =>
    obtain ⟨k', v'⟩ := hd
    have hk : k' ≠ k := h (k', v') (by simp)
    have ht : objGet tl k = none := ih (fun p hp => h p (by simp [hp]))
    simp [objGet, ht, hk]

/-- Any header literal of shape `pre ++ ("Content-Encoding","gzip") :: tail`
with no later Content-Encoding entry resolves that header to gzip. -/
theorem objGet_ce (pre tail : List (String × String)) (h : noCE tail) :
    objGet (pre ++ ceGzip :: tail) "Content-Encoding" = some "gzip" := by
  rw [objGet_append]
  have ht : objGet tail "Content-Encoding" = none := objGet_none_of tail _ h
  simp [objGet, ceGzip, ht]

/-- The gzip invariant for one pipeline outcome: every returned response
resolves Content-Encoding to gzip, and every thrown exception carries debug
headers that cannot override it in the catch. -/
def CEOk (p : PipeOut) : Prop :=
  (∀ r, p.result = .ok r → objGet r.headers "Content-Encoding" = some "gzip") ∧
  (∀ d, p.result = .error d → noCE d)

theorem ce_transformStage (cfg : AutoConfig) (env : AutoEnv) (debugS : String)
    (req : JsRequest) (resp : OriginResponse) (ctv : String) (g : GridData)
    (dbg : List (String × String)) (tr : Trace) (hdbg : noCE dbg) :
    CEOk (transformStage cfg env debugS req resp ctv g dbg tr) := by
  have hshape : ∀ v : String,
      resp.hdrs ++ ("Content-Type", v) :: ceGzip :: dbg =
        (resp.hdrs ++ [("Content-Type", v)]) ++ ceGzip :: dbg := by
    intro v
    simp
  constructor <;> intro x hx <;> simp only [transformStage] at hx <;>
    split at hx
  case _ f hf =>
    split at hx
    · split at hx
      · cases hx
      · simp only [mkResp] at hx
        injection hx with hx
        subst hx
        rw [hshape]
        exact objGet_ce _ _ hdbg
    · simp only [mkResp] at hx
      injection hx with hx
      subst hx
      rw [hshape]
      exact objGet_ce _ _ hdbg
  case _ hf =>
    simp only [mkResp] at hx
    injection hx with hx
    subst hx
    exact objGet_ce _ _
      (noCE_ifDebugHdr _ _ _ hdbg (noCE_single _ _ (by decide)))
  case _ f hf =>
    split at hx
    · split at hx
      · injection hx with hx
        subst hx
        exact hdbg
      · cases hx
    · cases hx
  case _ hf =>
    cases hx

theorem noCE_cons (k v : String) (l : List (String × String))
    (h1 : k ≠ "Content-Encoding") (h2 : noCE l) : noCE ((k, v) :: l) := by
  intro p hp
  rcases List.mem_cons.mp hp with h | h
  · subst h
    exact h1
  · exact h2 p h

theorem ce_pageStage (cfg : AutoConfig) (env : AutoEnv) (debugS : String)
    (req : JsRequest) (resp : OriginResponse) (ctv : String)
    (location : LocationResult) (g : GridData)
    (dbg : List (String × String)) (tr : Trace) (hdbg : noCE dbg) :
    CEOk (pageStage cfg env debugS req resp ctv location g dbg tr) := by
  have hdbg3 : noCE (ifDebugHdr debugS dbg
      [("gaw-applied", "auto"), ("gaw-grid-data", env.stringifyGrid g),
       ("gaw-location", env.stringifyLoc location)]) :=
    noCE_ifDebugHdr _ _ _ hdbg
      (noCE_cons _ _ _ (by decide)
        (noCE_cons _ _ _ (by decide) (noCE_single _ _ (by decide))))
  have hdbg4 : noCE (ifDebugHdr debugS (ifDebugHdr debugS dbg
      [("gaw-applied", "auto"), ("gaw-grid-data", env.stringifyGrid g),
       ("gaw-location", env.stringifyLoc location)])
      [("gaw-page-source", "workers kv")]) :=
    noCE_ifDebugHdr _ _ _ hdbg3 (noCE_single _ _ (by decide))
  refine ⟨?_, ?_⟩ <;> intro x hx <;> simp only [pageStage] at hx <;> split at hx
  · split at hx
    · simp only [mkResp] at hx
      injection hx with hx
      subst hx
      exact objGet_ce _ _ (noCE_cons _ _ _ (by decide) hdbg4)
    · exact (ce_transformStage cfg env debugS req resp ctv g _ _ hdbg4).1 x hx
  · exact (ce_transformStage cfg env debugS req resp ctv g _ _ hdbg3).1 x hx
  · split at hx
    · cases hx
    · exact (ce_transformStage cfg env debugS req resp ctv g _ _ hdbg4).2 x hx
  · exact (ce_transformStage cfg env debugS req resp ctv g _ _ hdbg3).2 x hx

theorem ce_apiStage (cfg : AutoConfig) (env : AutoEnv) (debugS : String)
    (req : JsRequest) (resp : OriginResponse) (ctv : String)
    (location : LocationResult) (dbg1 : List (String × String)) (hdbg : noCE dbg1) :
    CEOk (apiStage cfg env debugS req resp ctv location dbg1) := by
  have hdbg2 : noCE (ifDebugHdr debugS dbg1 [("gaw-data-source", "api")]) :=
    noCE_ifDebugHdr _ _ _ hdbg (noCE_single _ _ (by decide))
  have hdbg3 : noCE (ifDebugHdr debugS (ifDebugHdr debugS dbg1 [("gaw-data-source", "api")])
      [("gaw-applied", "error-grid-data")]) :=
    noCE_ifDebugHdr _ _ _ hdbg2 (noCE_single _ _ (by decide))
  refine ⟨?_, ?_⟩ <;> intro x hx <;> simp only [apiStage] at hx <;> split at hx
  · cases hx
  · rename_i g hg
    split at hx
    · simp only [mkResp] at hx
      injection hx with hx
      subst hx
      exact objGet_ce _ _ hdbg3
    · exact (ce_pageStage cfg env debugS req resp ctv location g _ _ hdbg2).1 x hx
  · injection hx with hx
    subst hx
    exact hdbg2
  · rename_i g hg
    split at hx
    · cases hx
    · exact (ce_pageStage cfg env debugS req resp ctv location g _ _ hdbg2).2 x hx

theorem ce_classStage (cfg : AutoConfig) (env : AutoEnv) (debugS : String)
    (req : JsRequest) (resp : OriginResponse) (ctv : String)
    (location : LocationResult) (dbg1 : List (String × String)) (hdbg : noCE dbg1) :
    CEOk (classStage cfg env debugS req resp ctv location dbg1) := by
  have hdbg2 : noCE (ifDebugHdr debugS dbg1 [("gaw-data-source", "workers-kv")]) :=
    noCE_ifDebugHdr _ _ _ hdbg (noCE_single _ _ (by decide))
  refine ⟨?_, ?_⟩ <;> intro x hx <;> simp only [classStage] at hx <;> split at hx
  · split at hx
    · rename_i g _
      exact (ce_pageStage cfg env debugS req resp ctv location g _ _ hdbg2).1 x hx
    · exact (ce_apiStage cfg env debugS req resp ctv location dbg1 hdbg).1 x hx
  · exact (ce_apiStage cfg env debugS req resp ctv location dbg1 hdbg).1 x hx
  · split at hx
    · rename_i g _
      exact (ce_pageStage cfg env debugS req resp ctv location g _ _ hdbg2).2 x hx
    · exact (ce_apiStage cfg env debugS req resp ctv location dbg1 hdbg).2 x hx
  · exact (ce_apiStage cfg env debugS req resp ctv location dbg1 hdbg).2 x hx

theorem ce_locationStage (cfg : AutoConfig) (env : AutoEnv) (debugS : String)
    (req : JsRequest) (resp : OriginResponse) (ctv : String) :
    CEOk (locationStage cfg env debugS req resp ctv) := by
  refine ⟨?_, ?_⟩ <;> intro x hx <;> simp only [locationStage] at hx <;> split at hx
  · simp only [mkResp] at hx
    injection hx with hx
    subst hx
    exact objGet_ce _ _
      (noCE_ifDebugHdr _ _ _ noCE_nil (noCE_single _ _ (by decide)))
  · exact (ce_classStage cfg env debugS req resp ctv _ _ (noCE_locDbg _ _)).1 x hx
  · cases hx
  · exact (ce_classStage cfg env debugS req resp ctv _ _ (noCE_locDbg _ _)).2 x hx

theorem ce_cookieStage (cfg : AutoConfig) (env : AutoEnv) (debugS : String)
    (req : JsRequest) (resp : OriginResponse) (ctv : String) :
    CEOk (cookieStage cfg env debugS req resp ctv) := by
  have hshape : resp.hdrs ++ ("Content-Type", ctv) :: ceGzip :: ([] : List (String × String)) =
      (resp.hdrs ++ [("Content-Type", ctv)]) ++ ceGzip :: ([] : List (String × String)) := by
    simp
  refine ⟨?_, ?_⟩ <;> intro x hx <;> simp only [cookieStage] at hx <;> split at hx
  · split at hx
    · cases hx
    · simp only [mkResp] at hx
      injection hx with hx
      subst hx
      rw [hshape]
      exact objGet_ce _ _ noCE_nil
  · split at hx
    · simp only [mkResp] at hx
      injection hx with hx
      subst hx
      exact objGet_ce _ _
        (noCE_ifDebugHdr _ _ _ noCE_nil (noCE_single _ _ (by decide)))
    · exact (ce_locationStage cfg env debugS req resp ctv).1 x hx
  · split at hx
    · injection hx with hx
      subst hx
      exact noCE_nil
    · cases hx
  · split at hx
    · cases hx
    · exact (ce_locationStage cfg env debugS req resp ctv).2 x hx

theorem ce_contentStage (cfg : AutoConfig) (env : AutoEnv) (debugS : String)
    (req : JsRequest) (resp : OriginResponse) :
    CEOk (contentStage cfg env debugS req resp) := by
  refine ⟨?_, ?_⟩ <;> intro x hx <;> simp only [contentStage] at hx <;> split at hx
  · simp only [mkResp] at hx
    injection hx with hx
    subst hx
    exact objGet_ce _ _
      (noCE_ifDebugHdr _ _ _ noCE_nil (noCE_single _ _ (by decide)))
  · split at hx
    · simp only [mkResp] at hx
      injection hx with hx
      subst hx
      have hshape : resp.hdrs ++ ("Content-Type", resp.contentType.getD "") :: ceGzip ::
          ifDebugHdr debugS [] [("gaw-applied", "skip-content-type")] =
          (resp.hdrs ++ [("Content-Type", resp.contentType.getD "")]) ++ ceGzip ::
            ifDebugHdr debugS [] [("gaw-applied", "skip-content-type")] := by
        simp
      rw [hshape]
      exact objGet_ce _ _
        (noCE_ifDebugHdr _ _ _ noCE_nil (noCE_single _ _ (by decide)))
    · exact (ce_cookieStage cfg env debugS req resp _).1 x hx
  · cases hx
  · split at hx
    · cases hx
    · exact (ce_cookieStage cfg env debugS req resp _).2 x hx

theorem ce_pipeline (cfg : AutoConfig) (env : AutoEnv) :
    CEOk (autoPipeline cfg env) := by
  refine ⟨?_, ?_⟩ <;> intro x hx <;> simp only [autoPipeline] at hx <;> split at hx
  · cases hx
  · split at hx
    · cases hx
    · exact (ce_contentStage cfg env (effDebug cfg) _ _).1 x hx
  · injection hx with hx
    subst hx
    exact noCE_nil
  · split at hx
    · injection hx with hx
      subst hx
      exact noCE_nil
    · exact (ce_contentStage cfg env (effDebug cfg) _ _).2 x hx

/-- **C9.** Every response `auto` returns — on every exit path, the guard
exits, the cached-page return, the transformed and untransformed returns, and
the top-level catch — resolves the `Content-Encoding` response header to
`"gzip"`, regardless of the origin response's own encoding. -/
theorem auto_sets_gzip (cfg : AutoConfig) (env : AutoEnv) (r : JsResponse)
    (h : (auto cfg env).result = .ok r) :
    objGet r.headers "Content-Encoding" = some "gzip" := by
  have hce := ce_pipeline cfg env
  unfold auto at h
  rcases hp : autoPipeline cfg env with ⟨res, tr⟩
  rw [hp] at h hce
  cases res with
  | ok r0 =>
    simp only at h
    injection h with h
    subst h
    exact hce.1 r0 rfl
  | error d =>
    simp only at h
    cases hre : env.refetch with
    | error _ =>
      rw [hre] at h
      cases h
    | ok er =>
      rw [hre] at h
      simp only [mkResp] at h
      injection h with h
      subst h
      exact objGet_ce _ _
        (noCE_ifDebugHdr _ _ _ (hce.2 d rfl) (noCE_single _ _ (by decide)))

/-- Configuration for the C9 witness. -/
def c9Cfg : AutoConfig :=
  ⟨none, none, none, none, none, false, false, false, none⟩

/-- Environment for the C9 witness: an origin response without a content-type
header (a guard exit). -/
def c9Env : AutoEnv :=
  ⟨⟨"https://example.com/", none, none⟩, .error (), .ok ⟨"B", none, []⟩, .error (),
   [], [], fun _ => .error (), fun _ => "{}", fun _ => "{}", .error (), false⟩

/-- Witness for C9 at a concrete guard-exit response. -/
theorem auto_sets_gzip_witness :
    objGet (mkResp "B" [ceGzip]).headers "Content-Encoding" = some "gzip" :=
  auto_sets_gzip c9Cfg c9Env (mkResp "B" [ceGzip]) rfl

/-! ## Claim C7: page-cache keys incorporate the classification level -/

/-- The page-cache key discipline of one invocation: every page-KV read key
and write key is `"{level}_{url}"` for the classification level in scope, and
the read key always equals the write key. -/
def TraceKeysOk (url : String) (tr : Trace) : Prop :=
  (∀ k ∈ tr.pageGets, ∃ lvl, tr.levelUsed = some lvl ∧ k = jsToStr lvl ++ "_" ++ url) ∧
  (∀ e ∈ tr.pagePuts, ∃ lvl, tr.levelUsed = some lvl ∧ e.key = jsToStr lvl ++ "_" ++ url) ∧
  (∀ k ∈ tr.pageGets, ∀ e ∈ tr.pagePuts, k = e.key)

theorem tk_empty (url : String) (tr : Trace) (hg : tr.pageGets = [])
    (hp : tr.pagePuts = []) : TraceKeysOk url tr := by
  refine ⟨?_, ?_, ?_⟩
  · intro k hk
    rw [hg] at hk
    cases hk
  · intro e he
    rw [hp] at he
    cases he
  · intro k hk
    rw [hg] at hk
    cases hk

theorem tk_transformStage (cfg : AutoConfig) (env : AutoEnv) (debugS : String)
    (req : JsRequest) (resp : OriginResponse) (ctv : String) (g : GridData)
    (dbg : List (String × String)) (tr : Trace)
    (h1 : tr.pagePuts = []) (h2 : tr.levelUsed = some g.level)
    (h3 : ∀ k ∈ tr.pageGets, k = pageKeyOf g req.url) :
    TraceKeysOk req.url (transformStage cfg env debugS req resp ctv g dbg tr).trace := by
  have htr : TraceKeysOk req.url tr := by
    refine ⟨fun k hk => ⟨g.level, h2, h3 k hk⟩, fun e he => ?_, fun k hk e he => ?_⟩
    · rw [h1] at he
      cases he
    · rw [h1] at he
      cases he
  cases hrw : levelRewriterOf cfg g with
  | none =>
    simp only [transformStage, hrw]
    exact htr
  | some f =>
    simp only [transformStage, hrw]
    cases hkv : cfg.kvCachePage with
    | false =>
      simp only [hkv, Bool.false_eq_true, if_false]
      exact htr
    | true =>
      simp only [hkv, if_true]
      cases hpf : env.pagePutFails with
      | true =>
        simp only [hpf, if_true]
        exact htr
      | false =>
        simp only [hpf, Bool.false_eq_true, if_false]
        refine ⟨?_, ?_, ?_⟩
        · intro k hk
          exact ⟨g.level, h2, h3 k hk⟩
        · intro e he
          simp at he
          subst he
          exact ⟨g.level, h2, rfl⟩
        · intro k hk e he
          simp at he
          subst he
          exact h3 k hk

theorem tk_pageStage (cfg : AutoConfig) (env : AutoEnv) (debugS : String)
    (req : JsRequest) (resp : OriginResponse) (ctv : String)
    (location : LocationResult) (g : GridData)
    (dbg : List (String × String)) (tr : Trace)
    (h1 : tr.pagePuts = []) (h2 : tr.pageGets = []) :
    TraceKeysOk req.url (pageStage cfg env debugS req resp ctv location g dbg tr).trace := by
  cases hkv : cfg.kvCachePage with
  | false =>
    simp only [pageStage, hkv, Bool.false_eq_true, if_false]
    exact tk_transformStage cfg env debugS req resp ctv g _ _
      (by simp [h1]) (by simp) (by simp [h2])
  | true =>
    simp only [pageStage, hkv, if_true]
    cases hget : kvGet env.pageKv (pageKeyOf g req.url) with
    | some c =>
      simp only [hget]
      refine ⟨?_, ?_, ?_⟩
      · intro k hk
        simp at hk
        subst hk
        exact ⟨g.level, rfl, rfl⟩
      · intro e he
        simp [h1] at he
      · intro k hk e he
        simp [h1] at he
    | none =>
      simp only [hget]
      exact tk_transformStage cfg env debugS req resp ctv g _ _
        (by simp [h1]) (by simp) (by simp)

theorem tk_apiStage (cfg : AutoConfig) (env : AutoEnv) (debugS : String)
    (req : JsRequest) (resp : OriginResponse) (ctv : String)
    (location : LocationResult) (dbg1 : List (String × String)) :
    TraceKeysOk req.url (apiStage cfg env debugS req resp ctv location dbg1).trace := by
  cases hapi : env.apiResult with
  | error e =>
    simp only [apiStage, hapi]
    exact tk_empty _ _ rfl rfl
  | ok g =>
    simp only [apiStage, hapi]
    cases hgs : (g.status == some "error") with
    | true =>
      simp only [hgs, if_true]
      exact tk_empty _ _ rfl rfl
    | false =>
      simp only [hgs, Bool.false_eq_true, if_false]
      cases hkd : cfg.kvCacheData with
      | false =>
        simp only [hkd, Bool.false_eq_true, if_false]
        exact tk_pageStage cfg env debugS req resp ctv location g _ _ rfl rfl
      | true =>
        simp only [hkd, if_true]
        cases hll : (jsT location.lat && jsT location.lon) with
        | true =>
          simp only [hll, if_true]
          exact tk_pageStage cfg env debugS req resp ctv location g _ _ rfl rfl
        | false =>
          simp only [hll, Bool.false_eq_true, if_false]
          cases hc : jsT location.country with
          | true =>
            simp only [hc, if_true]
            exact tk_pageStage cfg env debugS req resp ctv location g _ _ rfl rfl
          | false =>
            simp only [hc, Bool.false_eq_true, if_false]
            exact tk_pageStage cfg env debugS req resp ctv location g _ _ rfl rfl

theorem tk_classStage (cfg : AutoConfig) (env : AutoEnv) (debugS : String)
    (req : JsRequest) (resp : OriginResponse) (ctv : String)
    (location : LocationResult) (dbg1 : List (String × String)) :
    TraceKeysOk req.url (classStage cfg env debugS req resp ctv location dbg1).trace := by
  cases hct : cachedTruthyOf cfg env location with
  | false =>
    simp only [classStage, hct, Bool.false_eq_true, if_false]
    exact tk_apiStage cfg env debugS req resp ctv location dbg1
  | true =>
    simp only [classStage, hct, if_true]
    cases hcg : cachedGridOf cfg env location with
    | some g =>
      simp only [hcg]
      exact tk_pageStage cfg env debugS req resp ctv location g _ _ rfl rfl
    | none =>
      simp only [hcg]
      exact tk_apiStage cfg env debugS req resp ctv location dbg1

theorem tk_locationStage (cfg : AutoConfig) (env : AutoEnv) (debugS : String)
    (req : JsRequest) (resp : OriginResponse) (ctv : String) :
    TraceKeysOk req.url (locationStage cfg env debugS req resp ctv).trace := by
  cases hl : (!jsT (getLocation req (some ⟨some (effLocType cfg)⟩)).country &&
      (!jsT (getLocation req (some ⟨some (effLocType cfg)⟩)).lat ||
       !jsT (getLocation req (some ⟨some (effLocType cfg)⟩)).lon)) with
  | true =>
    simp only [locationStage, hl, if_true]
    exact tk_empty _ _ rfl rfl
  | false =>
    simp only [locationStage, hl, Bool.false_eq_true, if_false]
    exact tk_classStage cfg env debugS req resp ctv _ _

theorem tk_cookieStage (cfg : AutoConfig) (env : AutoEnv) (debugS : String)
    (req : JsRequest) (resp : OriginResponse) (ctv : String) :
    TraceKeysOk req.url (cookieStage cfg env debugS req resp ctv).trace := by
  cases hman : hasCookieSub req.cookie "gaw-manual-view" with
  | true =>
    simp only [cookieStage, hman, if_true]
    cases hrw : manualRewriterOf cfg req.cookie with
    | none =>
      simp only [hrw]
      exact tk_empty _ _ rfl rfl
    | some f =>
      simp only [hrw]
      exact tk_empty _ _ rfl rfl
  | false =>
    simp only [cookieStage, hman, Bool.false_eq_true, if_false]
    cases hign : hasCookieSub req.cookie (effIgnoreCookie cfg) with
    | true =>
      simp only [hign, if_true]
      exact tk_empty _ _ rfl rfl
    | false =>
      simp only [hign, Bool.false_eq_true, if_false]
      exact tk_locationStage cfg env debugS req resp ctv

theorem tk_contentStage (cfg : AutoConfig) (env : AutoEnv) (debugS : String)
    (req : JsRequest) (resp : OriginResponse) :
    TraceKeysOk req.url (contentStage cfg env debugS req resp).trace := by
  cases hjs : jsT resp.contentType with
  | false =>
    simp only [contentStage, hjs, Bool.not_false, if_true]
    exact tk_empty _ _ rfl rfl
  | true =>
    simp only [contentStage, hjs, Bool.not_true, Bool.false_eq_true, if_false]
    cases hany : ((effTypes cfg).any
        fun t => strContains (lowerStr (resp.contentType.getD "")) (lowerStr t)) with
    | false =>
      simp only [hany, Bool.not_false, if_true]
      exact tk_empty _ _ rfl rfl
    | true =>
      simp only [hany, Bool.not_true, Bool.false_eq_true, if_false]
      exact tk_cookieStage cfg env debugS req resp _

theorem tk_pipeline (cfg : AutoConfig) (env : AutoEnv) :
    TraceKeysOk (effRequest cfg env).url (autoPipeline cfg env).trace := by
  cases hdev : (cfg.dev && !(match env.devUrl with | .ok _ => true | .error _ => false)) with
  | true =>
    simp only [autoPipeline, hdev, if_true]
    exact tk_empty _ _ rfl rfl
  | false =>
    simp only [autoPipeline, hdev, Bool.false_eq_true, if_false]
    cases hf : env.originFetch with
    | error e =>
      simp only [hf]
      exact tk_empty _ _ rfl rfl
    | ok resp =>
      simp only [hf]
      exact tk_contentStage cfg env (effDebug cfg) (effRequest cfg env) resp

/-- **C7.** In every invocation of `auto`, every page-cache read key and every
page-persist write key is of the form `"{classificationLevel}_{requestURL}"`
for the `gridData.level` in scope, and the read key always equals the write
key, so a cached page is only ever served for the classification level it was
rendered under. -/
theorem page_cache_keys_use_level_and_url (cfg : AutoConfig) (env : AutoEnv) :
    TraceKeysOk (effRequest cfg env).url (auto cfg env).trace := by
  rw [auto_trace]
  exact tk_pipeline cfg env

end Gaw
